import Mathlib

/-!
Shallow embedding of `pyramid_ldap3/__init__.py`.

The module provides LDAP authentication for the Pyramid web framework:
`_LDAPQuery` (a templated search with a coarse time-bucketed result cache),
`_timeslice`, `ConnectionManager` (URI parsing and connection construction),
`Connector.authenticate` / `Connector.user_groups`, and the `groupfinder`
adapter.  Pure computations are translated to Lean functions; the effectful
parts (network search, bind, connection construction) are made explicit:
their outcomes are parameters of the embedded functions, and
`Connector.authenticate` additionally returns the trace of network
operations it attempted, in order.
-/

/-- LDAP search scope constants (`ldap3.SEARCH_SCOPE_*`). -/
inductive Scope where
  | baseObject
  | singleLevel
  | wholeSubtree
deriving DecidableEq, Repr

/-- Values stored in an LDAP result entry's attribute dictionary: the
distinguished name is a string, attributes are sequences of values. -/
inductive PyVal where
  | str (s : String)
  | list (xs : List String)
  | pyNone
deriving DecidableEq, Repr

/-- One element of a search result as `authenticate` consumes it with
`result[0]['dn']`: either a dictionary (attribute name to value), or a
non-subscriptable object, for which `['dn']` raises `TypeError`. -/
inductive ResultEntry where
  | dict (fields : List (String × PyVal))
  | nonDict
deriving DecidableEq, Repr

/-- Python exceptions raised by subscripting in this module. -/
inductive PyExc where
  | indexError
  | keyError
  | typeError
deriving DecidableEq, Repr

/-- An `ldap3.LDAPException`; the payload distinguishes concrete errors. -/
structure LDAPError where
  code : Nat
deriving DecidableEq, Repr

/-- Dictionary lookup on an entry's field list (first match wins; literal
dictionaries in the directory responses have unique keys). -/
def lookupField : List (String × PyVal) → String → Option PyVal
  | [], _ => none
  | (k, v) :: rest, key => if k = key then some v else lookupField rest key

/-- Models `entry[key]`: `TypeError` on a non-dictionary entry, `KeyError`
on a missing key. -/
def getItem : ResultEntry → String → Except PyExc PyVal
  | ResultEntry.nonDict, _ => Except.error PyExc.typeError
  | ResultEntry.dict fields, key =>
    match lookupField fields key with
    | some v => Except.ok v
    | none => Except.error PyExc.keyError

/-- Models the `try: login_dn = result[0]['dn'] except (IndexError, KeyError,
TypeError)` block of `Connector.authenticate`: `none` exactly when the result
is empty, its first entry is not a dictionary, or the dictionary has no
`dn` key. -/
def resolveDn (result : List ResultEntry) : Option PyVal :=
  match result with
  | [] => none
  | e :: _ =>
    match getItem e "dn" with
    | Except.ok v => some v
    | Except.error _ => none

/-- Models name lookup in the keyword dictionary for `%`-formatting; a key
missing from the dictionary leaves the placeholder text in place (the
claims only exercise present keys). -/
def lookupKw : List (String × String) → String → Option String
  | [], _ => none
  | (k, v) :: rest, key => if k = key then some v else lookupKw rest key

/-- Scans `name)s` at the start of the character list, returning the name
and the remaining characters. -/
def scanName : List Char → List Char → Option (String × List Char)
  | [], _ => none
  | ')' :: 's' :: rest, acc => some (String.mk acc.reverse, rest)
  | ')' :: _, _ => none
  | c :: rest, acc => scanName rest (c :: acc)

/-- Fueled worker for `pyFormat`; the fuel is the template length, which
bounds the number of steps since each step consumes at least one input
character. -/
def pyFormatAux (kw : List (String × String)) : Nat → List Char → List Char
  | 0, _ => []
  | _, [] => []
  | fuel + 1, '%' :: '%' :: rest => '%' :: pyFormatAux kw fuel rest
  | fuel + 1, '%' :: '(' :: rest =>
    match scanName rest [] with
    | some (name, rest₂) =>
      (match lookupKw kw name with
       | some v => v.data
       | none => ('%' :: '(' :: name.data) ++ (')' :: ['s'])) ++ pyFormatAux kw fuel rest₂
    | none => '%' :: pyFormatAux kw fuel ('(' :: rest)
  | fuel + 1, c :: rest => c :: pyFormatAux kw fuel rest

/-- Models Python `%`-formatting with a keyword dictionary, as used on
`base_dn % kw` and `filter_tmpl % kw`: each `%(name)s` placeholder is
replaced by the named value and `%%` by a percent sign. -/
def pyFormat (tmpl : String) (kw : List (String × String)) : String :=
  String.mk (pyFormatAux kw tmpl.data.length tmpl.data)

/-- The rendered cache key of `_LDAPQuery.execute`:
`(self.base_dn % kw, self.filter_tmpl % kw, self.scope)`. -/
abbrev CacheKey := String × String × Scope

/-- State of a `_LDAPQuery` instance: the four constructor arguments plus
the mutable cache fields `last_timeslice` and `cache`. -/
structure _LDAPQuery where
  base_dn : String
  filter_tmpl : String
  scope : Scope
  cache_period : Nat
  last_timeslice : Nat
  cache : List (CacheKey × List ResultEntry)
deriving DecidableEq, Repr

/-- Models `_LDAPQuery.__init__`: `last_timeslice = 0`, empty cache. -/
def initLDAPQuery (base_dn filter_tmpl : String) (scope : Scope)
    (cache_period : Nat) : _LDAPQuery :=
  ⟨base_dn, filter_tmpl, scope, cache_period, 0, []⟩

/-- Models the module-level `_timeslice(period, when)`:
`when - (when % period)`. -/
def _timeslice (period : Nat) (now : Nat) : Nat := now - now % period

/-- Dictionary read `self.cache.get(cache_key)`. -/
def cacheGet : List (CacheKey × List ResultEntry) → CacheKey →
    Option (List ResultEntry)
  | [], _ => none
  | (k, v) :: rest, key => if k = key then some v else cacheGet rest key

/-- Dictionary write `self.cache[cache_key] = result`. -/
def cacheSet : List (CacheKey × List ResultEntry) → CacheKey →
    List ResultEntry → List (CacheKey × List ResultEntry)
  | [], key, v => [(key, v)]
  | (k, w) :: rest, key, v =>
    if k = key then (key, v) :: rest else (k, w) :: cacheSet rest key v

/-- Models `_LDAPQuery.query_cache(cache_key)` at explicit time `now`:
if the current time bucket is strictly greater than `last_timeslice`, the
cache dictionary is replaced by an empty one and `last_timeslice` is set to
the bucket; returns the looked-up value and the updated state. -/
def query_cache (q : _LDAPQuery) (cache_key : CacheKey) (now : Nat) :
    Option (List ResultEntry) × _LDAPQuery :=
  let ts := _timeslice q.cache_period now
  let q₂ := if q.last_timeslice < ts then
              { q with cache := [], last_timeslice := ts }
            else q
  (cacheGet q₂.cache cache_key, q₂)

/-- The cache key computed at the top of `_LDAPQuery.execute`. -/
def renderKey (q : _LDAPQuery) (kw : List (String × String)) : CacheKey :=
  (pyFormat q.base_dn kw, pyFormat q.filter_tmpl kw, q.scope)

/-- Models `_LDAPQuery.execute(conn, **kw)` at explicit time `now`.
`connSearch` models `conn.search` followed by `conn.get_response` on the
rendered key.  Returns the result, the updated query state, and whether a
search was performed on the connection (`true`) or the result came from
the cache (`false`). -/
def execute (q : _LDAPQuery) (connSearch : CacheKey → List ResultEntry)
    (now : Nat) (kw : List (String × String)) :
    List ResultEntry × _LDAPQuery × Bool :=
  let cache_key := renderKey q kw
  if q.cache_period ≠ 0 then
    match query_cache q cache_key now with
    | (none, q₂) =>
      let result := connSearch cache_key
      (result, { q₂ with cache := cacheSet q₂.cache cache_key result }, true)
    | (some result, q₂) => (result, q₂, false)
  else
    (connSearch cache_key, q, true)

/-- The server parameters derived by `ConnectionManager.__init__` from the
URI: host, port and the `use_ssl` flag passed to `ldap3.Server`. -/
structure ServerSpec where
  host : String
  port : Int
  use_ssl : Bool
deriving DecidableEq, Repr

/-- Tests whether the first list is a prefix of the second. -/
def isPrefixOfChars : List Char → List Char → Bool
  | [], _ => true
  | _ :: _, [] => false
  | a :: as, b :: bs => a == b && isPrefixOfChars as bs

/-- Splits a character list at the first occurrence of `sep`, returning the
parts before and after it, or `none` when `sep` does not occur. -/
def splitOnceChars (sep : List Char) : List Char → Option (List Char × List Char)
  | [] => none
  | c :: rest =>
    if isPrefixOfChars sep (c :: rest) then
      some ([], (c :: rest).drop sep.length)
    else
      match splitOnceChars sep rest with
      | some (pre, post) => some (c :: pre, post)
      | none => none

/-- Models Python `s.split(sep, 1)`: `none` when `sep` does not occur (the
unpacking then raises `ValueError`), otherwise the parts before and after
the first occurrence. -/
def pySplit1 (s sep : String) : Option (String × String) :=
  match splitOnceChars sep.data s.data with
  | some (pre, post) => some (String.mk pre, String.mk post)
  | none => none

/-- The numeric value of a decimal digit character, `none` otherwise. -/
def digitVal (c : Char) : Option Nat :=
  if c.isDigit then some (c.toNat - 48) else none

/-- Reads a non-empty run of decimal digits as a number; `none` on any
non-digit character. -/
def digitsToNatAux : List Char → Nat → Option Nat
  | [], acc => some acc
  | c :: rest, acc =>
    match digitVal c with
    | some d => digitsToNatAux rest (acc * 10 + d)
    | none => none

/-- Models Python `int(s)` on plain decimal literals with an optional sign
(`none` models the `ValueError`); the whitespace and underscore forms
Python also accepts are never produced by this module's callers. -/
def pyInt? (s : String) : Option Int :=
  match s.data with
  | [] => none
  | '-' :: rest =>
    match rest, digitsToNatAux rest 0 with
    | [], _ => none
    | _ :: _, some n => some (-(n : Int))
    | _ :: _, none => none
  | '+' :: rest =>
    match rest, digitsToNatAux rest 0 with
    | [], _ => none
    | _ :: _, some n => some (n : Int)
    | _ :: _, none => none
  | cs =>
    match digitsToNatAux cs 0 with
    | some n => some (n : Int)
    | none => none

/-- Models `schema, host = uri.split('://', 1)` with the `ValueError`
fallback `schema, host = 'ldap', uri`. -/
def splitScheme (uri : String) : String × String :=
  match pySplit1 uri "://" with
  | some (s, h) => (s, h)
  | none => ("ldap", uri)

/-- Models `host, port = host.split(':', 1); port = int(port)` with the
`ValueError` fallback `host, port = host, 636 if use_ssl else 389`.  When
the split succeeds but `int` fails, `host` has already been rebound to the
part before the colon, exactly as in the source. -/
def splitHostPort (use_ssl : Bool) (host : String) : String × Int :=
  match pySplit1 host ":" with
  | none => (host, if use_ssl then 636 else 389)
  | some (h, p) =>
    match pyInt? p with
    | some n => (h, n)
    | none => (h, if use_ssl then 636 else 389)

/-- Models the URI-parsing part of `ConnectionManager.__init__`:
scheme split, `use_ssl = schema == 'ldaps'`, then host/port split. -/
def parseUri (uri : String) : ServerSpec :=
  let sh := splitScheme uri
  let use_ssl := sh.1 == "ldaps"
  let hp := splitHostPort use_ssl sh.2
  ⟨hp.1, hp.2, use_ssl⟩

/-- The default-bind identity of a `ConnectionManager` (the `bind` and
`passwd` constructor arguments, both optional). -/
structure ManagerSpec where
  bind : Option String
  passwd : Option String
deriving DecidableEq, Repr

/-- The connection built by `ConnectionManager.connection`:
an ephemeral synchronous connection as the given user, or the
pooled/default-bind connection with the manager's configured strategy. -/
inductive ConnSpec where
  | sync (user : PyVal) (password : Option String)
  | pooled (bind : Option String) (passwd : Option String)
deriving DecidableEq, Repr

/-- Python truthiness of a value as tested by `if user:` in
`ConnectionManager.connection`. -/
def pyTruthy : PyVal → Bool
  | PyVal.str s => !(s == "")
  | PyVal.list xs => !xs.isEmpty
  | PyVal.pyNone => false

/-- Models `ConnectionManager.connection(user, password)`: a truthy `user`
yields the ephemeral synchronous verify connection authenticated as that
user and password; otherwise the default-bind pooled connection is built
and the `password` argument is unused. -/
def connection (m : ManagerSpec) (user : Option PyVal)
    (password : Option String) : ConnSpec :=
  match user with
  | some u =>
    if pyTruthy u then ConnSpec.sync u password
    else ConnSpec.pooled m.bind m.passwd
  | none => ConnSpec.pooled m.bind m.passwd

/-- Network operations attempted by `Connector.authenticate`, in order:
acquiring the trusted connection, executing the login search, and the
open/bind/close verify sequence on the ephemeral connection built from the
resolved DN and the supplied password. -/
inductive NetEvent where
  | trustedConnect
  | search
  | verifyBind (dn : PyVal) (password : Option String)
deriving DecidableEq, Repr

/-- Outcome of a `Connector` method: a returned value, a raised
`pyramid.exceptions.ConfigurationError` with its message, or a propagated
`ldap3.LDAPException`. -/
inductive PyOutcome (α : Type) where
  | ok (v : α)
  | configError (msg : String)
  | ldapError (e : LDAPError)
deriving DecidableEq, Repr

/-- Models `Connector.authenticate(login, password)`.
`loginQuery` is `getattr(self.registry, 'ldap_login_query', None)`;
`trustedConnect` is the outcome of `self.manager.connection()`;
`searchExec` is the outcome of
`search.execute(conn, login=login, password=password)` (the `login`
argument only feeds that call, so it is absorbed into this parameter);
`verify` gives the outcome of the `connection(login_dn, password)` /
`open` / `bind` / `close` sequence for a given DN and password.
Returns the trace of attempted network operations and the outcome.
A password equal to the empty string returns `None` before anything else;
errors from `trustedConnect` and `searchExec` propagate; a failure to
resolve `result[0]['dn']` returns `None`; an `LDAPException` from the
verify sequence is caught and returns `None`; otherwise `result[0]` is
returned. -/
def authenticate (loginQuery : Option Unit) (password : Option String)
    (trustedConnect : Except LDAPError Unit)
    (searchExec : Except LDAPError (List ResultEntry))
    (verify : PyVal → Option String → Except LDAPError Unit) :
    List NetEvent × PyOutcome (Option ResultEntry) :=
  if password = some "" then ([], PyOutcome.ok none)
  else
    match trustedConnect with
    | Except.error e => ([NetEvent.trustedConnect], PyOutcome.ldapError e)
    | Except.ok _ =>
      match loginQuery with
      | none =>
        ([NetEvent.trustedConnect],
         PyOutcome.configError "ldap_set_login_query was not called during setup")
      | some _ =>
        match searchExec with
        | Except.error e =>
          ([NetEvent.trustedConnect, NetEvent.search], PyOutcome.ldapError e)
        | Except.ok result =>
          match resolveDn result with
          | none =>
            ([NetEvent.trustedConnect, NetEvent.search], PyOutcome.ok none)
          | some dn =>
            match verify dn password with
            | Except.error _ =>
              ([NetEvent.trustedConnect, NetEvent.search,
                NetEvent.verifyBind dn password], PyOutcome.ok none)
            | Except.ok _ =>
              ([NetEvent.trustedConnect, NetEvent.search,
                NetEvent.verifyBind dn password], PyOutcome.ok result.head?)

/-- Models `Connector.user_groups(userdn)`.
`groupsQuery` is `getattr(self.registry, 'ldap_groups_query', None)`;
`trustedConnect` is the outcome of `self.manager.connection()`;
`searchExec` is the outcome of `search.execute(conn, userdn=userdn)`.
An `LDAPException` from the search is caught and returns `None`; on
success the full result sequence is returned. -/
def user_groups (groupsQuery : Option Unit)
    (trustedConnect : Except LDAPError Unit)
    (searchExec : Except LDAPError (List ResultEntry)) :
    PyOutcome (Option (List ResultEntry)) :=
  match trustedConnect with
  | Except.error e => PyOutcome.ldapError e
  | Except.ok _ =>
    match groupsQuery with
    | none =>
      PyOutcome.configError "set_ldap_groups_query was not called during setup"
    | some _ =>
      match searchExec with
      | Except.error _ => PyOutcome.ok none
      | Except.ok result => PyOutcome.ok (some result)

/-- Evaluates the list comprehension `[group['dn'] for group in group_list]`,
propagating the first subscripting exception. -/
def collectDns : List ResultEntry → Except PyExc (List PyVal)
  | [] => Except.ok []
  | g :: rest =>
    match getItem g "dn" with
    | Except.error e => Except.error e
    | Except.ok d =>
      match collectDns rest with
      | Except.error e => Except.error e
      | Except.ok ds => Except.ok (d :: ds)

/-- Models `groupfinder(userdn, request)` given the value returned by
`connector.user_groups(userdn)`: `None` when that value is `None`,
otherwise the list of each group entry's `dn`. -/
def groupfinder (group_list : Option (List ResultEntry)) :
    Except PyExc (Option (List PyVal)) :=
  match group_list with
  | none => Except.ok none
  | some gs =>
    match collectDns gs with
    | Except.error e => Except.error e
    | Except.ok dns => Except.ok (some dns)

/-- C1: for every login, if the password argument equals the empty string,
`Connector.authenticate` returns "no match" (`None`) immediately, with an
empty network trace: no connection is obtained and no search or bind is
attempted. -/
theorem C1_empty_password_no_network (loginQuery : Option Unit)
    (trustedConnect : Except LDAPError Unit)
    (searchExec : Except LDAPError (List ResultEntry))
    (verify : PyVal → Option String → Except LDAPError Unit) :
    authenticate loginQuery (some "") trustedConnect searchExec verify
      = ([], PyOutcome.ok none) := by
  simp [authenticate]

/-- C2: with a non-empty password and a registered login query, every
credential-side failure converges to "no match": an unresolvable
`result[0]['dn']` (empty, malformed, or missing-`dn` result) returns
`None`, an `LDAPException` in the verify phase returns `None`, and only a
successful verify returns the first result entry. -/
theorem C2_credential_failures_no_match (password : Option String)
    (hp : password ≠ some "")
    (verify : PyVal → Option String → Except LDAPError Unit) :
    (∀ result : List ResultEntry, resolveDn result = none →
      (authenticate (some ()) password (Except.ok ()) (Except.ok result)
        verify).2 = PyOutcome.ok none) ∧
    (∀ (result : List ResultEntry) (dn : PyVal) (e : LDAPError),
      resolveDn result = some dn → verify dn password = Except.error e →
      (authenticate (some ()) password (Except.ok ()) (Except.ok result)
        verify).2 = PyOutcome.ok none) ∧
    (∀ (result : List ResultEntry) (dn : PyVal),
      resolveDn result = some dn → verify dn password = Except.ok () →
      (authenticate (some ()) password (Except.ok ()) (Except.ok result)
        verify).2 = PyOutcome.ok result.head?) := by
  refine ⟨?_, ?_, ?_⟩
  · intro result hres
    simp [authenticate, hp, hres]
  · intro result dn e hres hv
    simp [authenticate, hp, hres, hv]
  · intro result dn hres hv
    simp [authenticate, hp, hres, hv]

/-- C2 witness: a concrete successful authentication returns the first
result entry. -/
theorem C2_credential_failures_no_match_witness :
    (authenticate (some ()) (some "pw") (Except.ok ())
      (Except.ok [ResultEntry.dict [("dn", PyVal.str "cn=a")]])
      (fun _ _ => Except.ok ())).2
      = PyOutcome.ok (some (ResultEntry.dict [("dn", PyVal.str "cn=a")])) := by
  simpa using
    (C2_credential_failures_no_match (some "pw") (by simp)
      (fun _ _ => Except.ok ())).2.2
      [ResultEntry.dict [("dn", PyVal.str "cn=a")]]
      (PyVal.str "cn=a") (by decide) rfl

/-- C3: with a non-empty password, an `LDAPException` raised while
acquiring the trusted connection or while executing the login search
propagates out of `Connector.authenticate` unmodified, while the same
exception raised in the verify phase is caught and yields `None`. -/
theorem C3_lookup_errors_propagate (password : Option String)
    (hp : password ≠ some "") (e : LDAPError)
    (verify : PyVal → Option String → Except LDAPError Unit) :
    (∀ (loginQuery : Option Unit)
       (searchExec : Except LDAPError (List ResultEntry)),
      (authenticate loginQuery password (Except.error e) searchExec
        verify).2 = PyOutcome.ldapError e) ∧
    (authenticate (some ()) password (Except.ok ()) (Except.error e)
      verify).2 = PyOutcome.ldapError e ∧
    (∀ (result : List ResultEntry) (dn : PyVal),
      resolveDn result = some dn → verify dn password = Except.error e →
      (authenticate (some ()) password (Except.ok ()) (Except.ok result)
        verify).2 = PyOutcome.ok none) := by
  refine ⟨?_, ?_, ?_⟩
  · intro loginQuery searchExec
    simp [authenticate, hp]
  · simp [authenticate, hp]
  · intro result dn hres hv
    simp [authenticate, hp, hres, hv]

/-- C3 witness: a concrete lookup-phase error propagates while the same
error in the verify phase yields `None`. -/
theorem C3_lookup_errors_propagate_witness :
    (authenticate (some ()) (some "pw") (Except.error ⟨7⟩)
      (Except.ok []) (fun _ _ => Except.error ⟨7⟩)).2
      = PyOutcome.ldapError ⟨7⟩ ∧
    (authenticate (some ()) (some "pw") (Except.ok ())
      (Except.ok [ResultEntry.dict [("dn", PyVal.str "cn=a")]])
      (fun _ _ => Except.error ⟨7⟩)).2 = PyOutcome.ok none := by
  refine ⟨?_, ?_⟩
  · exact (C3_lookup_errors_propagate (some "pw") (by simp) ⟨7⟩
      (fun _ _ => Except.error ⟨7⟩)).1 (some ()) (Except.ok [])
  · exact (C3_lookup_errors_propagate (some "pw") (by simp) ⟨7⟩
      (fun _ _ => Except.error ⟨7⟩)).2.2
      [ResultEntry.dict [("dn", PyVal.str "cn=a")]]
      (PyVal.str "cn=a") (by decide) rfl

/-- C8: with no registered login query and a non-empty password,
`Connector.authenticate` raises a `ConfigurationError` (never converted to
"no match"), and `Connector.user_groups` raises a `ConfigurationError`
when no groups query was registered. -/
theorem C8_missing_query_config_error (password : Option String)
    (hp : password ≠ some "")
    (searchExec searchExec₂ : Except LDAPError (List ResultEntry))
    (verify : PyVal → Option String → Except LDAPError Unit) :
    (authenticate none password (Except.ok ()) searchExec verify).2
      = PyOutcome.configError
          "ldap_set_login_query was not called during setup" ∧
    user_groups none (Except.ok ()) searchExec₂
      = PyOutcome.configError
          "set_ldap_groups_query was not called during setup" := by
  refine ⟨?_, ?_⟩
  · simp [authenticate, hp]
  · simp [user_groups]

/-- C8 witness: the two configuration errors at concrete inputs. -/
theorem C8_missing_query_config_error_witness :
    (authenticate none (some "pw") (Except.ok ()) (Except.ok [])
      (fun _ _ => Except.ok ())).2
      = PyOutcome.configError
          "ldap_set_login_query was not called during setup" ∧
    user_groups none (Except.ok ()) (Except.ok [])
      = PyOutcome.configError
          "set_ldap_groups_query was not called during setup" :=
  C8_missing_query_config_error (some "pw") (by simp)
    (Except.ok []) (Except.ok []) (fun _ _ => Except.ok ())

/-- C9: an `LDAPException` in the groups search makes `user_groups` return
`None` rather than propagate, and `groupfinder` then returns `None` —
which is distinct from an empty list; on a successful result whose entries
all resolve a `dn`, `groupfinder` returns exactly that list of
distinguished names. -/
theorem C9_groups_error_none (e : LDAPError) (gs : List ResultEntry)
    (dns : List PyVal) (hdns : collectDns gs = Except.ok dns) :
    user_groups (some ()) (Except.ok ()) (Except.error e)
      = PyOutcome.ok none ∧
    groupfinder none = Except.ok none ∧
    groupfinder none ≠ Except.ok (some []) ∧
    groupfinder (some gs) = Except.ok (some dns) := by
  refine ⟨?_, ?_, ?_, ?_⟩
  · simp [user_groups]
  · simp [groupfinder]
  · simp [groupfinder]
  · simp [groupfinder, hdns]

/-- C9 witness: a concrete two-group result yields exactly the two group
DNs. -/
theorem C9_groups_error_none_witness :
    user_groups (some ()) (Except.ok ()) (Except.error ⟨3⟩)
      = PyOutcome.ok none ∧
    groupfinder (some [ResultEntry.dict [("dn", PyVal.str "cn=g1")],
                       ResultEntry.dict [("dn", PyVal.str "cn=g2")]])
      = Except.ok (some [PyVal.str "cn=g1", PyVal.str "cn=g2"]) :=
  ⟨(C9_groups_error_none ⟨3⟩ [] [] rfl).1,
   (C9_groups_error_none ⟨3⟩
      [ResultEntry.dict [("dn", PyVal.str "cn=g1")],
       ResultEntry.dict [("dn", PyVal.str "cn=g2")]]
      [PyVal.str "cn=g1", PyVal.str "cn=g2"] rfl).2.2.2⟩

/-- C10: the empty-password guard tests equality with the empty string
only: for every password that is not exactly `''` — including `None` —
the trace starts with the trusted-connection acquisition, and when a DN is
resolved the verify connection is requested for exactly that DN and that
password value; `ConnectionManager.connection` with a truthy user builds
the synchronous verify connection carrying that password. -/
theorem C10_guard_is_empty_string_only (password : Option String)
    (hp : password ≠ some "")
    (verify : PyVal → Option String → Except LDAPError Unit)
    (m : ManagerSpec) :
    (∀ (loginQuery : Option Unit) (trustedConnect : Except LDAPError Unit)
       (searchExec : Except LDAPError (List ResultEntry)),
      ((authenticate loginQuery password trustedConnect searchExec
          verify).1).head? = some NetEvent.trustedConnect) ∧
    (∀ (result : List ResultEntry) (dn : PyVal),
      resolveDn result = some dn →
      (authenticate (some ()) password (Except.ok ()) (Except.ok result)
        verify).1
        = [NetEvent.trustedConnect, NetEvent.search,
           NetEvent.verifyBind dn password]) ∧
    (∀ dn : PyVal, pyTruthy dn = true →
      connection m (some dn) password = ConnSpec.sync dn password) := by
  refine ⟨?_, ?_, ?_⟩
  · intro loginQuery trustedConnect searchExec
    cases trustedConnect with
    | error e => simp [authenticate, hp]
    | ok _ =>
      cases loginQuery with
      | none => simp [authenticate, hp]
      | some _ =>
        cases searchExec with
        | error e => simp [authenticate, hp]
        | ok result =>
          cases hres : resolveDn result with
          | none => simp [authenticate, hp, hres]
          | some dn =>
            cases hv : verify dn password with
            | error e => simp [authenticate, hp, hres, hv]
            | ok _ => simp [authenticate, hp, hres, hv]
  · intro result dn hres
    cases hv : verify dn password with
    | error e => simp [authenticate, hp, hres, hv]
    | ok _ => simp [authenticate, hp, hres, hv]
  · intro dn hdn
    simp [connection, hdn]

/-- C10 witness: with password `None` the guard does not fire, the verify
connection is requested with password `None`, and a truthy DN yields the
synchronous verify connection. -/
theorem C10_guard_is_empty_string_only_witness :
    (authenticate (some ()) none (Except.ok ())
      (Except.ok [ResultEntry.dict [("dn", PyVal.str "cn=a")]])
      (fun _ _ => Except.ok ())).1
      = [NetEvent.trustedConnect, NetEvent.search,
         NetEvent.verifyBind (PyVal.str "cn=a") none] ∧
    connection ⟨none, none⟩ (some (PyVal.str "cn=a")) none
      = ConnSpec.sync (PyVal.str "cn=a") none :=
  ⟨(C10_guard_is_empty_string_only none (by simp)
      (fun _ _ => Except.ok ()) ⟨none, none⟩).2.1
      [ResultEntry.dict [("dn", PyVal.str "cn=a")]]
      (PyVal.str "cn=a") (by decide),
   (C10_guard_is_empty_string_only none (by simp)
      (fun _ _ => Except.ok ()) ⟨none, none⟩).2.2
      (PyVal.str "cn=a") (by decide)⟩

/-- C5: with cache period `0`, `_LDAPQuery.execute` always performs the
search on the connection, never consults the cache (the returned value is
the fresh search result regardless of the cache contents) and never
mutates the state (never stores). -/
theorem C5_zero_period_bypasses_cache (q : _LDAPQuery)
    (connSearch : CacheKey → List ResultEntry) (now : Nat)
    (kw : List (String × String)) (h : q.cache_period = 0) :
    execute q connSearch now kw = (connSearch (renderKey q kw), q, true) := by
  simp [execute, h]

/-- C5 witness: a pre-populated cache under period `0` is ignored and left
unchanged. -/
theorem C5_zero_period_bypasses_cache_witness :
    execute ⟨"b", "f", Scope.singleLevel, 0, 0,
        [(("b", "f", Scope.singleLevel), [ResultEntry.nonDict])]⟩
      (fun _ => []) 11 []
      = ([], ⟨"b", "f", Scope.singleLevel, 0, 0,
          [(("b", "f", Scope.singleLevel), [ResultEntry.nonDict])]⟩, true) :=
  C5_zero_period_bypasses_cache _ (fun _ => []) 11 [] rfl

/-- C6: on every cache access with a non-zero period, if the current time
bucket is strictly greater than `last_timeslice` then the whole cache is
cleared at once and `last_timeslice` is set to the current bucket; and in
every case the cache after `query_cache` either equals its previous value
or is empty — it is never partially invalidated. -/
theorem C6_cache_cleared_wholesale (q : _LDAPQuery) (key : CacheKey)
    (now : Nat) (hper : q.cache_period ≠ 0) :
    (q.last_timeslice < _timeslice q.cache_period now →
      (query_cache q key now).2.cache = [] ∧
      (query_cache q key now).2.last_timeslice
        = _timeslice q.cache_period now) ∧
    ((query_cache q key now).2.cache = q.cache ∨
      (query_cache q key now).2.cache = []) := by
  by_cases h : q.last_timeslice < _timeslice q.cache_period now
  · refine ⟨fun _ => ⟨?_, ?_⟩, Or.inr ?_⟩ <;> simp [query_cache, h]
  · exact ⟨fun hc => absurd hc h, Or.inl (by simp [query_cache, h])⟩

/-- C6 witness: a populated cache is cleared wholesale when the bucket
advances. -/
theorem C6_cache_cleared_wholesale_witness :
    (query_cache ⟨"b", "f", Scope.singleLevel, 5, 5,
        [(("b", "f", Scope.singleLevel), [])]⟩
      ("b", "f", Scope.singleLevel) 11).2.cache = [] ∧
    (query_cache ⟨"b", "f", Scope.singleLevel, 5, 5,
        [(("b", "f", Scope.singleLevel), [])]⟩
      ("b", "f", Scope.singleLevel) 11).2.last_timeslice = 10 :=
  (C6_cache_cleared_wholesale _ _ 11 (by decide)).1 (by decide)

/-- C7: `ldaps://dir.example.com` parses to host `dir.example.com`, port
636, encrypted; `dir.example.com:1389` parses to that host, port 1389,
plaintext; a URI with no scheme separator is plaintext, an `ldaps` scheme
implies encryption, and a host part with no explicit port defaults to 636
when encrypted else 389. -/
theorem C7_uri_parsing :
    parseUri "ldaps://dir.example.com" = ⟨"dir.example.com", 636, true⟩ ∧
    parseUri "dir.example.com:1389" = ⟨"dir.example.com", 1389, false⟩ ∧
    (∀ uri : String, pySplit1 uri "://" = none →
      (parseUri uri).use_ssl = false) ∧
    (∀ (uri rest : String), pySplit1 uri "://" = some ("ldaps", rest) →
      (parseUri uri).use_ssl = true) ∧
    (∀ (use_ssl : Bool) (host : String), pySplit1 host ":" = none →
      splitHostPort use_ssl host = (host, if use_ssl then 636 else 389)) := by
  refine ⟨by decide, by decide, ?_, ?_, ?_⟩
  · intro uri h
    simp [parseUri, splitScheme, h]
  · intro uri rest h
    simp [parseUri, splitScheme, h]
  · intro use_ssl host h
    simp [splitHostPort, h]

/-- C7 witness: the general clauses applied at concrete URIs. -/
theorem C7_uri_parsing_witness :
    (parseUri "dir.example.com").use_ssl = false ∧
    (parseUri "ldaps://h").use_ssl = true ∧
    splitHostPort true "h" = ("h", 636) :=
  ⟨C7_uri_parsing.2.2.1 "dir.example.com" (by decide),
   C7_uri_parsing.2.2.2.1 "ldaps://h" "h" (by decide),
   C7_uri_parsing.2.2.2.2 true "h" (by decide)⟩

/-- The time bucket is `period` times the integer quotient. -/
theorem _timeslice_eq_mul_div (p t : Nat) : _timeslice p t = p * (t / p) := by
  have h := Nat.div_add_mod t p
  unfold _timeslice
  omega

/-- Time buckets are monotone in the time argument. -/
theorem _timeslice_mono (p t₁ t₂ : Nat) (h : t₁ ≤ t₂) :
    _timeslice p t₁ ≤ _timeslice p t₂ := by
  rw [_timeslice_eq_mul_div, _timeslice_eq_mul_div]
  exact Nat.mul_le_mul_left p (Nat.div_le_div_right h)

/-- With a non-zero period, `execute` on a freshly constructed query
performs the search, stores the result under the rendered key, and records
the current bucket. -/
theorem execute_init_eq (b f : String) (sc : Scope) (p : Nat) (hp : p ≠ 0)
    (cs : CacheKey → List ResultEntry) (t : Nat)
    (kw : List (String × String)) :
    execute (initLDAPQuery b f sc p) cs t kw
      = (cs (renderKey (initLDAPQuery b f sc p) kw),
         ⟨b, f, sc, p, _timeslice p t,
          [(renderKey (initLDAPQuery b f sc p) kw,
            cs (renderKey (initLDAPQuery b f sc p) kw))]⟩, true) := by
  by_cases h0 : 0 < _timeslice p t
  · simp [execute, query_cache, initLDAPQuery, hp, h0, cacheGet, cacheSet]
  · have hz : _timeslice p t = 0 := by omega
    simp [execute, query_cache, initLDAPQuery, hp, h0, cacheGet, cacheSet, hz]

/-- C4 (amended): for every cache period > 0, two `execute` calls on a
fresh query with identical parameters: the first call always searches; if
the calls' times fall in the same time bucket the second call is served
from the cache without searching and returns the first call's result; and
if the calls' times fall in different buckets — with the calls in
chronological order — both calls search. -/
theorem C4_same_bucket_single_search (b f : String) (sc : Scope) (p : Nat)
    (hp : p ≠ 0) (cs : CacheKey → List ResultEntry)
    (kw : List (String × String)) (t₁ t₂ : Nat) :
    (execute (initLDAPQuery b f sc p) cs t₁ kw).2.2 = true ∧
    (_timeslice p t₁ = _timeslice p t₂ →
      (execute ((execute (initLDAPQuery b f sc p) cs t₁ kw).2.1)
        cs t₂ kw).2.2 = false ∧
      (execute ((execute (initLDAPQuery b f sc p) cs t₁ kw).2.1)
        cs t₂ kw).1 = (execute (initLDAPQuery b f sc p) cs t₁ kw).1) ∧
    (t₁ ≤ t₂ → _timeslice p t₁ ≠ _timeslice p t₂ →
      (execute ((execute (initLDAPQuery b f sc p) cs t₁ kw).2.1)
        cs t₂ kw).2.2 = true) := by
  have h1 := execute_init_eq b f sc p hp cs t₁ kw
  refine ⟨by rw [h1], ?_, ?_⟩
  · intro hts
    have hnl : ¬ (_timeslice p t₁ < _timeslice p t₂) := by omega
    rw [h1]
    constructor <;>
      simp [execute, query_cache, renderKey, initLDAPQuery, hp, hnl,
        cacheGet]
  · intro hle hne
    have hlt : _timeslice p t₁ < _timeslice p t₂ :=
      lt_of_le_of_ne (_timeslice_mono p t₁ t₂ hle) hne
    rw [h1]
    simp [execute, query_cache, renderKey, initLDAPQuery, hp, hlt,
      cacheGet, cacheSet]

/-- C4 witness: with period 5, calls at times 6 and 9 share a bucket (one
search, cached second call); calls at times 6 and 11 span a boundary (two
searches). -/
theorem C4_same_bucket_single_search_witness :
    ((execute (initLDAPQuery "b" "f" Scope.singleLevel 5)
        (fun _ => [ResultEntry.nonDict]) 6 []).2.2 = true ∧
     (execute ((execute (initLDAPQuery "b" "f" Scope.singleLevel 5)
        (fun _ => [ResultEntry.nonDict]) 6 []).2.1)
        (fun _ => [ResultEntry.nonDict]) 9 []).2.2 = false ∧
     (execute ((execute (initLDAPQuery "b" "f" Scope.singleLevel 5)
        (fun _ => [ResultEntry.nonDict]) 6 []).2.1)
        (fun _ => [ResultEntry.nonDict]) 9 []).1
       = (execute (initLDAPQuery "b" "f" Scope.singleLevel 5)
        (fun _ => [ResultEntry.nonDict]) 6 []).1) ∧
    (execute ((execute (initLDAPQuery "b" "f" Scope.singleLevel 5)
        (fun _ => [ResultEntry.nonDict]) 6 []).2.1)
        (fun _ => [ResultEntry.nonDict]) 11 []).2.2 = true :=
  ⟨⟨(C4_same_bucket_single_search "b" "f" Scope.singleLevel 5 (by decide)
      (fun _ => [ResultEntry.nonDict]) [] 6 9).1,
    (C4_same_bucket_single_search "b" "f" Scope.singleLevel 5 (by decide)
      (fun _ => [ResultEntry.nonDict]) [] 6 9).2.1 (by decide)⟩,
   (C4_same_bucket_single_search "b" "f" Scope.singleLevel 5 (by decide)
      (fun _ => [ResultEntry.nonDict]) [] 6 11).2.2 (by decide) (by decide)⟩

/-- C4 counterexample to the claim as stated: with period 5, a first call
at time 5 and a second call at time 0 fall in different time buckets, yet
the second call is served from the cache and performs no search, because
the cache is only invalidated when the bucket advances past the last-seen
one. -/
theorem C4_counterexample :
    _timeslice 5 5 ≠ _timeslice 5 0 ∧
    (execute ((execute (initLDAPQuery "b" "f" Scope.singleLevel 5)
        (fun _ => [ResultEntry.nonDict]) 5 []).2.1)
        (fun _ => [ResultEntry.nonDict]) 0 []).2.2 = false := by
  refine ⟨by decide, ?_⟩
  rfl
